import Mathlib

/-!
Verification of the feature-service client module
(`src/_meteor/service/_featureservice.py`) of the ArcREST repository.

The module is request-building glue: each operation assembles a parameter
mapping, sends it through a transport collaborator (`self._con.get` /
`self._con.post`), and returns the decoded response.  We embed the
operations as pure Lean functions over a JSON-like value type.  Network
traffic is made observable: each operation returns the list of requests it
issued together with its Python-level outcome (returned value, returned
`None`, raised exception, or a poll loop still running when the supplied
poll responses ran out).
-/

set_option autoImplicit false

/-- JSON-like Python values as the module manipulates them: strings, ints,
booleans, `None`, lists and dicts (dicts as ordered association lists,
matching CPython's insertion-ordered dicts). -/
inductive PVal where
  | str : String → PVal
  | int : Int → PVal
  | bool : Bool → PVal
  | null : PVal
  | list : List PVal → PVal
  | dict : List (String × PVal) → PVal

/-- A request parameter mapping (`params` / `postdata` in the source). -/
abbrev Params := List (String × PVal)

/-- First value bound to key `k`, if any (Python `d[k]` / `k in d`). -/
def lookupKey (k : String) : Params → Option PVal
  | [] => Option.none
  | (k', v) :: rest => if k' = k then some v else lookupKey k rest

/-- Boolean key-membership test (Python `k in d` for dicts). -/
def hasKeyB (k : String) (ps : Params) : Bool :=
  (lookupKey k ps).isSome

/-- Python dict assignment `d[k] = v`: overwrite in place if the key is
present (keeping its position), else append. -/
def setKey (k : String) (v : PVal) : Params → Params
  | [] => [(k, v)]
  | (k', v') :: rest =>
      if k' = k then (k, v) :: rest else (k', v') :: setKey k v rest

/-- Prefix test on character lists. -/
def isPref : List Char → List Char → Bool
  | [], _ => true
  | _ :: _, [] => false
  | a :: as, b :: bs => a == b && isPref as bs

/-- Contiguous-sublist test on character lists. -/
def subChars (needle : List Char) : List Char → Bool
  | [] => needle.isEmpty
  | c :: rest => isPref needle (c :: rest) || subChars needle rest

/-- Python substring test `needle in hay` for strings. -/
def strContains (hay needle : String) : Bool :=
  subChars needle.toList hay.toList

/-- ASCII lower-casing of one character. -/
def lowerChar (c : Char) : Char :=
  if 65 ≤ c.toNat ∧ c.toNat ≤ 90 then Char.ofNat (c.toNat + 32) else c

/-- Python `s.lower()` for the ASCII strings this module lower-cases
(`dataFormat`, `sqlFormat`, job status values). -/
def pyLower (s : String) : String := ⟨s.data.map lowerChar⟩

/-- Python `x == False` for the values a service descriptor attribute can
hold (`False == False`; `0 == False`; anything else is not equal). -/
def pyEqFalse : PVal → Bool
  | .bool b => !b
  | .int n => n == 0
  | _ => false

/-- Python `x == True` (`True == True`; `1 == True`). -/
def pyEqTrue : PVal → Bool
  | .bool b => b
  | .int n => n == 1
  | _ => false

/-- Python `needle in v` for a string needle: substring test on strings,
key membership on dicts, element equality on lists; `none` models the
`TypeError` raised for non-container values. -/
def pyInStr (needle : String) : PVal → Option Bool
  | .str s => some (strContains s needle)
  | .dict d => some (hasKeyB needle d)
  | .list l => some (l.any (fun p => match p with
      | .str s => s == needle
      | _ => false))
  | _ => Option.none

/-- `isinstance(v, dict)`. -/
def isDict : PVal → Bool
  | .dict _ => true
  | _ => false

/-- `isinstance(v, list)`. -/
def isList : PVal → Bool
  | .list _ => true
  | _ => false

/-- `isinstance(v, bool)`. -/
def isBool : PVal → Bool
  | .bool _ => true
  | _ => false

mutual

/-- `json.dumps` as the source uses it (default separators `", "` and
`": "`; the `_date_handler` default only affects date objects, which the
value type does not contain). -/
def dumps : PVal → String
  | .null => "null"
  | .bool b => if b then "true" else "false"
  | .int n => toString n
  | .str s => "\"" ++ s ++ "\""
  | .list l => "[" ++ dumpsList l ++ "]"
  | .dict d => "\x7b" ++ dumpsDict d ++ "\x7d"

/-- Comma-separated serialization of a list body. -/
def dumpsList : List PVal → String
  | [] => ""
  | [v] => dumps v
  | v :: rest => dumps v ++ ", " ++ dumpsList rest

/-- Comma-separated serialization of a dict body. -/
def dumpsDict : List (String × PVal) → String
  | [] => ""
  | [(k, v)] => "\"" ++ k ++ "\": " ++ dumps v
  | (k, v) :: rest => "\"" ++ k ++ "\": " ++ dumps v ++ ", " ++ dumpsDict rest

end

/-- Python `str(v)` / `"%s" % v` for the scalar values used as layer ids
and urls (containers fall back to their serialized form; the source only
ever formats scalar ids). -/
def pyStr : PVal → String
  | .str s => s
  | .int n => toString n
  | .bool b => if b then "True" else "False"
  | .null => "None"
  | v => dumps v

/-- One observable request handed to the transport collaborator. -/
inductive Request where
  | get : String → Params → Request
  | post : String → Params → Request
  | postFiles : String → Params → List (String × String) → Request
  | getDownload : String → String → Request

/-- Python-level outcome of an operation. -/
inductive PyOut where
  | value : PVal → PyOut
  | pyNone : PyOut
  | raisedMsg : String → PyOut
  | raisedVal : PVal → PyOut
  | stuck : PyOut

/-- Arguments of `FeatureService.createReplica` with the source's default
values.  `geometryFilter` is modeled as the dict the source requires
(`isinstance(geometryFilter, dict)`); a `SpatialReference`-typed
`replicaSR` is modeled by the value handed to the parameter mapping. -/
structure CRArgs where
  replicaName : PVal
  layersArg : PVal
  layerQueries : Option PVal := Option.none
  geometryFilter : Option (List (String × PVal)) := Option.none
  replicaSR : Option PVal := Option.none
  transportType : Option PVal := some (.str "esriTransportTypeUrl")
  returnAttachments : Bool := false
  returnAttachmentsDatabyURL : Bool := false
  asyncJob : Bool := false
  attachmentsSyncDirection : String := "none"
  syncModel : String := "none"
  dataFormat : String := "json"
  replicaOptions : Option PVal := Option.none
  wait : Bool := false
  outPath : Option String := Option.none

/-- The transport collaborator's behavior for one `createReplica` call:
the decoded response to the initial POST, the successive decoded responses
to status GETs, the `os.path.isdir` oracle and the result of a follow-up
download GET. -/
structure Conn where
  postResponse : PVal
  pollResponses : List PVal := []
  isDir : String → Bool := fun _ => false
  downloadResult : PVal := PVal.null

/-- The capability gate opening `createReplica`:
`hasattr(self, "syncEnabled") and hasattr(self, "capabilities") and
getattr(self, "syncEnabled") == False and
"Extract" not in getattr(self, "capabilities")`.
`some true` means the gate fires (the operation returns `None`);
`none` models a `TypeError` from `in` applied to a non-container
capabilities value. -/
def gateEval (attrs : List (String × PVal)) : Option Bool :=
  match lookupKey "syncEnabled" attrs, lookupKey "capabilities" attrs with
  | some se, some caps =>
      if pyEqFalse se then
        match pyInStr "Extract" caps with
        | some b => some (!b)
        | Option.none => Option.none
      else some false
  | _, _ => some false

/-- The enumerated `dataformat` list of `createReplica`. -/
def dataformatList : List String := ["filegdb", "json", "sqlite", "shapefile"]

/-- The `if v is not None: params[k] = v` idiom. -/
def setOpt (k : String) (o : Option PVal) (ps : Params) : Params :=
  match o with
  | some v => setKey k v ps
  | Option.none => ps

/-- The `if v is not None and isinstance(v, dict): params[k] = v` idiom. -/
def setOptDict (k : String) (o : Option PVal) (ps : Params) : Params :=
  match o with
  | some v => if isDict v then setKey k v ps else ps
  | Option.none => ps

/-- `v is not None and v != ""`, the inclusion test the layer query
applies to `objectIds`, `resultOffset` and `resultRecordCount`. -/
def includeSel : PVal → Bool
  | .null => false
  | .str s => !(s == "")
  | _ => true

/-- The `if v is not None and v != "": params[k] = v` idiom of the layer
query's `objectIds`/`resultOffset`/`resultRecordCount`. -/
def setSel (k : String) (v : PVal) (ps : Params) : Params :=
  if includeSel v then setKey k v ps else ps

/-- Python `params.update(d)` (also the `**kwargs` merge loop): assign
every entry of `d` into `ps` in iteration order. -/
def updateDict (ps : Params) (d : List (String × PVal)) : Params :=
  d.foldl (fun acc kv => setKey kv.1 kv.2 acc) ps

/-- `if gf is not None and isinstance(gf, dict): params.update(gf)`. -/
def updateOpt (o : Option (List (String × PVal))) (ps : Params) : Params :=
  match o with
  | some d => updateDict ps d
  | Option.none => ps

/-- A `layers`/`tables` array entry carrying just an `id`, as used to
state order preservation of descriptor discovery. -/
def mkIdEntry (i : PVal) : PVal := .dict [("id", i)]

/-- The parameter mapping `createReplica` POSTs, assembled in source
order: the base dict, the validated lower-cased `dataFormat`, then the
optional entries (`layerQueries`, the geometry filter merged in via
`params.update`, `replicaSR`, `replicaOptions`, `transportType`). -/
def crParams (a : CRArgs) : Params :=
  let ps : Params := [("f", .str "json"),
    ("replicaName", a.replicaName),
    ("returnAttachments", .bool a.returnAttachments),
    ("returnAttachmentsDatabyURL", .bool a.returnAttachmentsDatabyURL),
    ("attachmentsSyncDirection", .str a.attachmentsSyncDirection),
    ("async", .bool a.asyncJob),
    ("syncModel", .str a.syncModel),
    ("layers", a.layersArg)]
  let ps := setKey "dataFormat" (.str (pyLower a.dataFormat)) ps
  let ps := setOpt "layerQueries" a.layerQueries ps
  let ps := updateOpt a.geometryFilter ps
  let ps := setOpt "replicaSR" a.replicaSR ps
  let ps := setOpt "replicaOptions" a.replicaOptions ps
  let ps := setOpt "transportType" a.transportType ps
  ps

/-- `status['status'].lower()` on a decoded status payload; `none` models
the `KeyError`/`AttributeError` raised when the payload is not a dict,
lacks the key, or holds a non-string status. -/
def statusOf (p : PVal) : Option String :=
  match p with
  | .dict d =>
      match lookupKey "status" d with
      | some (.str s) => some (pyLower s)
      | _ => Option.none
  | _ => Option.none

/-- Result of the `while status['status'].lower() != "completed"` loop:
the payload the loop leaves in `status` after falling through, the payload
returned early on `"failed"`, exhaustion of the supplied poll responses
(the unbounded loop still running), or a raised error while decoding a
status.  The `Nat` counts poll responses consumed from the supplied tail. -/
inductive LoopOut where
  | finished : PVal → Nat → LoopOut
  | failedReturn : PVal → Nat → LoopOut
  | exhausted : Nat → LoopOut
  | typeErr : Nat → LoopOut

/-- Add one consumed poll to a loop result. -/
def LoopOut.bump : LoopOut → LoopOut
  | .finished r n => .finished r (n + 1)
  | .failedReturn r n => .failedReturn r (n + 1)
  | .exhausted n => .exhausted (n + 1)
  | .typeErr n => .typeErr (n + 1)

/-- The poll loop of `createReplica` (`async=True, wait=True`), given the
result `cur` of the status GET already performed and the responses the
status URL will yield to further GETs.  Mirrors the source: `cur` is
tested only against `"completed"`; each in-loop poll is tested against
`"failed"` (early return) and then, on re-entering the condition, against
`"completed"`. -/
def pollLoop (cur : PVal) : List PVal → LoopOut
  | [] =>
      match statusOf cur with
      | Option.none => .typeErr 0
      | some s =>
          if s = "completed" then .finished cur 0 else .exhausted 0
  | p :: rest' =>
      match statusOf cur with
      | Option.none => .typeErr 0
      | some s =>
          if s = "completed" then .finished cur 0
          else
            match statusOf p with
            | Option.none => .typeErr 1
            | some s' =>
                if s' = "failed" then .failedReturn p 1
                else (pollLoop p rest').bump

/-- The tail of `createReplica` (from `if out_path is not None ...`):
optional download of `resultUrl`/`responseUrl` into `out_path`, else the
response itself, else `None`. -/
def afterPath (conn : Conn) (trace : List Request) (res : PVal)
    (outPath : Option String) : List Request × PyOut :=
  if (match outPath with | some p => conn.isDir p | Option.none => false) then
    match outPath with
    | some p =>
        (match pyInStr "resultUrl" res, pyInStr "responseUrl" res with
         | some r1, some r2 =>
             if r1 || r2 then
               match res with
               | .dict d =>
                   (match (if r1 then lookupKey "resultUrl" d
                           else lookupKey "responseUrl" d) with
                    | some (.str u) =>
                        (trace ++ [.getDownload u p], .value conn.downloadResult)
                    -- a non-string download url fails inside the transport
                    | some _ => (trace, .raisedMsg "TypeError")
                    | Option.none => (trace, .value res))
               -- indexing a non-mapping response raises
               | _ => (trace, .raisedMsg "TypeError")
             else
               match res with
               | .null => (trace, .pyNone)
               | r => (trace, .value r)
         | _, _ => (trace, .raisedMsg "TypeError"))
    | Option.none => (trace, .pyNone)
  else
    match res with
    | .null => (trace, .pyNone)
    | r => (trace, .value r)

/-- `FeatureService.createReplica`.  `attrs` is the descriptor's dynamic
attribute set (the server metadata merged onto the object), `url` the
service base url.  Returns the requests issued and the outcome.  For the
`async=True, wait=True` path the initial status GET and every loop GET hit
`exportJob['statusUrl'] + "/status"`; the loop's early `return status` on
a failed poll bypasses the `out_path` tail, while the fall-through result
goes through it. -/
def createReplica (attrs : List (String × PVal)) (url : String) (a : CRArgs)
    (conn : Conn) : List Request × PyOut :=
  match gateEval attrs with
  | Option.none => ([], .raisedMsg "TypeError")
  | some true => ([], .pyNone)
  | some false =>
      let curl := url ++ "/createReplica"
      if dataformatList.contains (pyLower a.dataFormat) then
        let ps := crParams a
        let postReq := Request.post curl ps
        if a.asyncJob then
          if a.wait then
            match conn.postResponse with
            | .dict jd =>
                match lookupKey "statusUrl" jd with
                | some (.str su) =>
                    let g : Request := .get (su ++ "/status") [("f", .str "json")]
                    (match conn.pollResponses with
                     | [] => ([postReq], .stuck)
                     | p0 :: rest =>
                         match pollLoop p0 rest with
                         | .finished res n =>
                             afterPath conn
                               (postReq :: List.replicate (n + 1) g) res a.outPath
                         | .failedReturn p n =>
                             (postReq :: List.replicate (n + 1) g, .value p)
                         | .exhausted n =>
                             (postReq :: List.replicate (n + 1) g, .stuck)
                         | .typeErr n =>
                             (postReq :: List.replicate (n + 1) g,
                              .raisedMsg "TypeError"))
                -- a non-string status url fails when `url + "/status"` is formed
                | some _ => ([postReq], .raisedMsg "TypeError")
                | Option.none => ([postReq], .raisedMsg "KeyError")
            | _ => ([postReq], .raisedMsg "TypeError")
          else
            afterPath conn [postReq] conn.postResponse a.outPath
        else
          afterPath conn [postReq] conn.postResponse a.outPath
      else ([], .raisedMsg "Invalid dataFormat")

/-- `FeatureLayer.addAttachment`: gated on the layer's own declared
`hasAttachments` attribute; on the supported path POSTs the multipart
request and returns the decoded response, otherwise returns the
explanatory string without any request. -/
def addAttachment (attrs : List (String × PVal)) (url oid filePath : String)
    (response : PVal) : List Request × PyOut :=
  match lookupKey "hasAttachments" attrs with
  | some v =>
      if pyEqTrue v then
        ([.postFiles (url ++ "/" ++ oid ++ "/addAttachment")
            [("f", .str "json")] [("attachment", filePath)]], .value response)
      else
        ([], .value (.str "Attachments are not supported for this feature service."))
  | Option.none =>
      ([], .value (.str "Attachments are not supported for this feature service."))

/-- `FeatureLayer.addFeature`: builds `f`/`gdbVersion`/`rollbackOnFailure`
(the latter only when it is a bool), then serializes `features` — a list
as-is, a single dict wrapped into a one-element list — and POSTs to
`/addFeatures`; any other shape raises before a request is sent. -/
def addFeature (url : String) (features : PVal) (gdbVersion : Option PVal)
    (rollbackOnFailure : PVal) (response : PVal) : List Request × PyOut :=
  let ps : Params := [("f", .str "json")]
  let ps := match gdbVersion with
    | some v => setKey "gdbVersion" v ps
    | Option.none => ps
  let ps := if isBool rollbackOnFailure
            then setKey "rollbackOnFailure" rollbackOnFailure ps else ps
  match features with
  | .list fs =>
      ([.post (url ++ "/addFeatures")
          (setKey "features" (.str (dumps (.list fs))) ps)], .value response)
  | .dict d =>
      ([.post (url ++ "/addFeatures")
          (setKey "features" (.str (dumps (.list [.dict d]))) ps)], .value response)
  | _ =>
      ([], .raisedMsg "features must be of type list of dictionaries or a dictionary")

/-- `FeatureLayer.updateFeature`: same normalization rule as `addFeature`
(dict checked first in the source), `rollbackOnFailure` always included,
raises `ValueError({'message': "invalid inputs"})` on any other shape. -/
def updateFeature (url : String) (features : PVal) (gdbVersion : Option PVal)
    (rollbackOnFailure : PVal) (response : PVal) : List Request × PyOut :=
  let ps : Params := [("f", .str "json"),
    ("rollbackOnFailure", rollbackOnFailure)]
  let ps := match gdbVersion with
    | some v => setKey "gdbVersion" v ps
    | Option.none => ps
  match features with
  | .dict d =>
      ([.post (url ++ "/updateFeatures")
          (setKey "features" (.str (dumps (.list [.dict d]))) ps)], .value response)
  | .list fs =>
      ([.post (url ++ "/updateFeatures")
          (setKey "features" (.str (dumps (.list fs))) ps)], .value response)
  | _ => ([], .raisedVal (.dict [("message", .str "invalid inputs")]))

/-- Arguments of `FeatureService.query` with the source's defaults.  A
`SpatialReference`-typed `outSR` is modeled by its `as_dict` mapping, so
both accepted branches collapse to the dict case. -/
structure FSQueryArgs where
  layerDefsFilter : Option PVal := Option.none
  geometryFilter : Option PVal := Option.none
  timeFilter : Option PVal := Option.none
  returnGeometry : Bool := true
  returnIdsOnly : Bool := false
  returnCountOnly : Bool := false
  returnZ : Bool := false
  returnM : Bool := false
  outSR : Option PVal := Option.none

/-- The parameter mapping of `FeatureService.query`, in source order:
base flags, `layerDefs`, the geometry filter copied field by field
(`geometryType`, `spatialRel`, `geometry`, `inSR`), `outSR`, `time`.
`none` models the `KeyError` raised when a supplied geometry filter dict
lacks one of the four fields. -/
def fsQueryParams (a : FSQueryArgs) : Option Params :=
  let ps : Params := [("f", .str "json"),
    ("returnGeometry", .bool a.returnGeometry),
    ("returnIdsOnly", .bool a.returnIdsOnly),
    ("returnCountOnly", .bool a.returnCountOnly),
    ("returnZ", .bool a.returnZ),
    ("returnM", .bool a.returnM)]
  let ps := setOptDict "layerDefs" a.layerDefsFilter ps
  match (match a.geometryFilter with
         | some (.dict gf) => do
             let gt ← lookupKey "geometryType" gf
             let sr ← lookupKey "spatialRel" gf
             let g ← lookupKey "geometry" gf
             let insr ← lookupKey "inSR" gf
             pure (setKey "inSR" insr (setKey "geometry" g
               (setKey "spatialRel" sr (setKey "geometryType" gt ps))))
         | _ => some ps) with
  | Option.none => Option.none
  | some ps =>
      let ps := setOptDict "outSR" a.outSR ps
      let ps := setOptDict "time" a.timeFilter ps
      some ps

/-- `FeatureService.query`: GET against `{url}/query`, response returned
as-is (no error-key inspection at the service level). -/
def fsQuery (a : FSQueryArgs) (url : String) (response : PVal) :
    List Request × PyOut :=
  match fsQueryParams a with
  | Option.none => ([], .raisedMsg "KeyError")
  | some ps => ([.get (url ++ "/query") ps], .value response)

/-- Arguments of `FeatureLayer.query` with the source's defaults.
`kwargs` is the extensibility escape hatch, merged into the parameters in
iteration order. -/
structure FLQueryArgs where
  whereClause : PVal := .str "1=1"
  out_fields : PVal := .str "*"
  timeFilter : Option PVal := Option.none
  geometryFilter : Option PVal := Option.none
  returnGeometry : Bool := true
  returnIDsOnly : Bool := false
  returnCountOnly : Bool := false
  returnDistinctValues : Bool := false
  returnExtentOnly : Bool := false
  groupByFieldsForStatistics : Option PVal := Option.none
  statisticFilter : Option PVal := Option.none
  resultOffset : PVal := .str ""
  resultRecordCount : PVal := .str ""
  objectIds : PVal := .str ""
  kwargs : List (String × PVal) := []

/-- The parameter mapping of `FeatureLayer.query`, in source order: base
entries, `kwargs` merged in, `time`, the geometry filter copied field by
field (`geometry`, `geometryType`, `spatialRelationship` from the
filter's `spatialRel`, `inSR`), then `objectIds`, `resultOffset`,
`resultRecordCount`, `groupByFieldsForStatistics`, `outStatistics`.
`none` models the `KeyError` raised when a supplied geometry filter dict
lacks one of the four fields. -/
def flQueryParams (a : FLQueryArgs) : Option Params :=
  let ps : Params := [("f", .str "json"),
    ("where", a.whereClause),
    ("outFields", a.out_fields),
    ("returnGeometry", .bool a.returnGeometry),
    ("returnIdsOnly", .bool a.returnIDsOnly),
    ("returnCountOnly", .bool a.returnCountOnly),
    ("returnDistinctValues", .bool a.returnDistinctValues),
    ("returnExtentOnly", .bool a.returnExtentOnly)]
  let ps := updateDict ps a.kwargs
  let ps := setOptDict "time" a.timeFilter ps
  match (match a.geometryFilter with
         | some (.dict gf) => do
             let g ← lookupKey "geometry" gf
             let gt ← lookupKey "geometryType" gf
             let sr ← lookupKey "spatialRel" gf
             let insr ← lookupKey "inSR" gf
             pure (setKey "inSR" insr (setKey "spatialRelationship" sr
               (setKey "geometryType" gt (setKey "geometry" g ps))))
         | _ => some ps) with
  | Option.none => Option.none
  | some ps =>
      let ps := setSel "objectIds" a.objectIds ps
      let ps := setSel "resultOffset" a.resultOffset ps
      let ps := setSel "resultRecordCount" a.resultRecordCount ps
      let ps := setOpt "groupByFieldsForStatistics" a.groupByFieldsForStatistics ps
      let ps := setOptDict "outStatistics" a.statisticFilter ps
      some ps

/-- `FeatureLayer.query`: POST against `{url}/query`; the decoded
response is raised as `ValueError(results)` when `'error' in results`,
returned unchanged otherwise. -/
def flQuery (a : FLQueryArgs) (url : String) (response : PVal) :
    List Request × PyOut :=
  match flQueryParams a with
  | Option.none => ([], .raisedMsg "KeyError")
  | some ps =>
      match pyInStr "error" response with
      | some true => ([.post (url ++ "/query") ps], .raisedVal response)
      | some false => ([.post (url ++ "/query") ps], .value response)
      | Option.none => ([.post (url ++ "/query") ps], .raisedMsg "TypeError")

/-- The mutable state of a `FeatureService` descriptor: base url, the
cached metadata dict (`self._json_dict`), and the two child caches
(`self._layers`, `self._tables`).  Child `FeatureLayer`/`TableLayer`
objects are represented by the url they are constructed with. -/
structure FService where
  url : String
  jsonDict : Option (List (String × PVal)) := Option.none
  layersCache : Option (List String) := Option.none
  tablesCache : Option (List String) := Option.none

/-- Child urls built from one `layers`/`tables` array: for each entry,
`self._url + "/%s" % l['id']`.  `none` models the `KeyError`/`TypeError`
raised on an entry without an `id` (or a non-dict entry). -/
def childUrlsAux (base : String) : List PVal → Option (List String)
  | [] => some []
  | e :: rest =>
      match e with
      | .dict d =>
          match lookupKey "id" d with
          | some v =>
              (childUrlsAux base rest).map (fun us => (base ++ "/" ++ pyStr v) :: us)
          | Option.none => Option.none
      | _ => Option.none

/-- The `layers` half of `_load_layers`'s body: appends the layer
children built from `jd["layers"]` onto the current layer cache.
Iterating a non-list value is modeled as a raised error (`none`); an
absent key is skipped. -/
def appendLayers (jd : List (String × PVal)) (s : FService) : Option FService :=
  match lookupKey "layers" jd with
  | some (.list entries) =>
      (childUrlsAux s.url entries).map (fun us =>
        { s with layersCache := some (s.layersCache.getD [] ++ us) })
  | some _ => Option.none
  | Option.none => some s

/-- The `tables` half of `_load_layers`'s body, same shape as the
`layers` half. -/
def appendTables (jd : List (String × PVal)) (s : FService) : Option FService :=
  match lookupKey "tables" jd with
  | some (.list entries) =>
      (childUrlsAux s.url entries).map (fun us =>
        { s with tablesCache := some (s.tablesCache.getD [] ++ us) })
  | some _ => Option.none
  | Option.none => some s

/-- The body of `_load_layers` once `self._json_dict` holds `jd`: appends
the layer children, then the table children, onto the current caches. -/
def appendFrom (jd : List (String × PVal)) (s : FService) : Option FService :=
  match appendLayers jd s with
  | some s1 => appendTables jd s1
  | Option.none => Option.none

/-- `FeatureService._load_layers`.  `conn` is the metadata dict the server
returns to `__init`'s GET.  Resets both caches to empty lists, then: with
cached metadata, appends its children once; with absent metadata, runs
`__init` (which caches the metadata and re-runs `_load_layers`), after
which the outer call appends the same children a second time — the
duplication is the source's, faithfully preserved. -/
def load_layers (conn : List (String × PVal)) (s : FService) : Option FService :=
  let s1 := { s with layersCache := some ([] : List String),
                     tablesCache := some ([] : List String) }
  match s1.jsonDict with
  | some jd => appendFrom jd s1
  | Option.none =>
      let s2 := { s1 with jsonDict := some conn,
                          layersCache := some ([] : List String),
                          tablesCache := some ([] : List String) }
      match appendFrom conn s2 with
      | some s3 => appendFrom conn s3
      | Option.none => Option.none

/-- The `layers` read accessor: return the cached list, populating both
caches through `_load_layers` when absent. -/
def layersProp (conn : List (String × PVal)) (s : FService) :
    Option (List String × FService) :=
  match s.layersCache with
  | some ls => some (ls, s)
  | Option.none =>
      match load_layers conn s with
      | some s' => some (s'.layersCache.getD [], s')
      | Option.none => Option.none

/-- The `tables` read accessor: same shape as `layers`. -/
def tablesProp (conn : List (String × PVal)) (s : FService) :
    Option (List String × FService) :=
  match s.tablesCache with
  | some ts => some (ts, s)
  | Option.none =>
      match load_layers conn s with
      | some s' => some (s'.tablesCache.getD [], s')
      | Option.none => Option.none

/-- `FeatureService.refresh_service`: clears both caches in one step, then
calls `self.__init()` — which, lacking its required `connection` argument,
raises a `TypeError` after the caches have been cleared. -/
def refresh_service (s : FService) : FService × PyOut :=
  ({ s with tablesCache := Option.none, layersCache := Option.none },
   .raisedMsg "TypeError")

theorem lookupKey_setKey_self (k : String) (v : PVal) (ps : Params) :
    lookupKey k (setKey k v ps) = some v := by
  induction ps with
  | nil => simp [setKey, lookupKey]
  | cons kv rest ih =>
      obtain ⟨k', v'⟩ := kv
      by_cases h : k' = k <;> simp [setKey, lookupKey, h, ih]

theorem lookupKey_setKey_ne (k k' : String) (v : PVal) (ps : Params)
    (h : k' ≠ k) : lookupKey k (setKey k' v ps) = lookupKey k ps := by
  induction ps with
  | nil => simp [setKey, lookupKey, h]
  | cons kv rest ih =>
      obtain ⟨k'', v''⟩ := kv
      by_cases h2 : k'' = k' <;> by_cases h3 : k'' = k <;>
        simp_all [setKey, lookupKey]

theorem lookupKey_setOpt_ne (k k' : String) (o : Option PVal) (ps : Params)
    (h : k' ≠ k) : lookupKey k (setOpt k' o ps) = lookupKey k ps := by
  cases o with
  | none => rfl
  | some v => exact lookupKey_setKey_ne k k' v ps h

theorem lookupKey_setOptDict_ne (k k' : String) (o : Option PVal) (ps : Params)
    (h : k' ≠ k) : lookupKey k (setOptDict k' o ps) = lookupKey k ps := by
  cases o with
  | none => rfl
  | some v =>
      unfold setOptDict
      by_cases hd : isDict v <;> simp [hd, lookupKey_setKey_ne k k' v ps h]

theorem lookupKey_setSel_ne (k k' : String) (v : PVal) (ps : Params)
    (h : k' ≠ k) : lookupKey k (setSel k' v ps) = lookupKey k ps := by
  unfold setSel
  by_cases hs : includeSel v <;> simp [hs, lookupKey_setKey_ne k k' v ps h]

theorem lookupKey_updateDict_ne (k : String) (l : List (String × PVal))
    (ps : Params) (h : ∀ kv ∈ l, kv.1 ≠ k) :
    lookupKey k (updateDict ps l) = lookupKey k ps := by
  induction l generalizing ps with
  | nil => rfl
  | cons kv rest ih =>
      unfold updateDict at ih ⊢
      simp only [List.foldl_cons]
      rw [ih (setKey kv.1 kv.2 ps) (fun x hx => h x (List.mem_cons_of_mem _ hx)),
          lookupKey_setKey_ne k kv.1 kv.2 ps (h kv (List.mem_cons_self _ _))]

theorem lookupKey_updateOpt_ne (k : String) (o : Option (List (String × PVal)))
    (ps : Params) (h : ∀ kv ∈ o.getD [], kv.1 ≠ k) :
    lookupKey k (updateOpt o ps) = lookupKey k ps := by
  cases o with
  | none => rfl
  | some d => exact lookupKey_updateDict_ne k d ps h

theorem hasKeyB_of_lookupKey_eq (k : String) (x y : Params)
    (h : lookupKey k x = lookupKey k y) : hasKeyB k x = hasKeyB k y := by
  simp [hasKeyB, h]

theorem statusOf_eq_dict (p : PVal) (s : String) (h : statusOf p = some s) :
    ∃ d, p = PVal.dict d := by
  cases p <;> first
    | exact ⟨_, rfl⟩
    | simp [statusOf] at h

theorem pollLoop_completed (cur : PVal) (rest : List PVal)
    (h : statusOf cur = some "completed") :
    pollLoop cur rest = .finished cur 0 := by
  cases rest <;> simp [pollLoop, h]

theorem pollLoop_step (cur p : PVal) (rest : List PVal) (s s' : String)
    (h : statusOf cur = some s) (hne : s ≠ "completed")
    (h2 : statusOf p = some s') (hf : s' ≠ "failed") :
    pollLoop cur (p :: rest) = (pollLoop p rest).bump := by
  simp [pollLoop, h, hne, h2, hf]

theorem pollLoop_failstep (cur p : PVal) (rest : List PVal) (s : String)
    (h : statusOf cur = some s) (hne : s ≠ "completed")
    (h2 : statusOf p = some "failed") :
    pollLoop cur (p :: rest) = .failedReturn p 1 := by
  simp [pollLoop, h, hne, h2]

theorem pollLoop_fail_after (mid : List PVal) (cur q : PVal) (rest : List PVal)
    (s0 : String) (h0 : statusOf cur = some s0) (h0c : s0 ≠ "completed")
    (hmid : ∀ p ∈ mid, ∃ sp, statusOf p = some sp ∧
      sp ≠ "completed" ∧ sp ≠ "failed")
    (hq : statusOf q = some "failed") :
    pollLoop cur (mid ++ q :: rest) = .failedReturn q (mid.length + 1) := by
  induction mid generalizing cur s0 with
  | nil => simpa using pollLoop_failstep cur q rest s0 h0 h0c hq
  | cons p mid' ih =>
      obtain ⟨sp, hsp, hspc, hspf⟩ := hmid p (List.mem_cons_self _ _)
      rw [List.cons_append,
          pollLoop_step cur p (mid' ++ q :: rest) s0 sp h0 h0c hsp hspf,
          ih p sp hsp hspc (fun x hx => hmid x (List.mem_cons_of_mem _ hx))]
      simp [LoopOut.bump]

theorem afterPath_none_dict (conn : Conn) (tr : List Request)
    (d : List (String × PVal)) :
    afterPath conn tr (.dict d) Option.none = (tr, .value (.dict d)) := rfl

theorem afterPath_head (conn : Conn) (r : Request) (t : List Request)
    (res : PVal) (op : Option String) :
    ((afterPath conn (r :: t) res op).1).head? = some r := by
  unfold afterPath
  repeat' split
  all_goals rfl

theorem createReplica_wait (attrs : List (String × PVal)) (url : String)
    (a : CRArgs) (conn : Conn) (jd : List (String × PVal)) (su : String)
    (p0 : PVal) (rest : List PVal)
    (hg : gateEval attrs = some false)
    (hdf : dataformatList.contains (pyLower a.dataFormat) = true)
    (ha : a.asyncJob = true) (hw : a.wait = true)
    (hpr : conn.postResponse = .dict jd)
    (hsu : lookupKey "statusUrl" jd = some (.str su))
    (hpolls : conn.pollResponses = p0 :: rest) :
    createReplica attrs url a conn =
      (match pollLoop p0 rest with
       | .finished res n =>
           afterPath conn
             (Request.post (url ++ "/createReplica") (crParams a) ::
               List.replicate (n + 1)
                 (.get (su ++ "/status") [("f", PVal.str "json")]))
             res a.outPath
       | .failedReturn p n =>
           (Request.post (url ++ "/createReplica") (crParams a) ::
             List.replicate (n + 1)
               (.get (su ++ "/status") [("f", PVal.str "json")]),
            .value p)
       | .exhausted n =>
           (Request.post (url ++ "/createReplica") (crParams a) ::
             List.replicate (n + 1)
               (.get (su ++ "/status") [("f", PVal.str "json")]),
            .stuck)
       | .typeErr n =>
           (Request.post (url ++ "/createReplica") (crParams a) ::
             List.replicate (n + 1)
               (.get (su ++ "/status") [("f", PVal.str "json")]),
            .raisedMsg "TypeError")) := by
  have hdf' : (pyLower a.dataFormat) ∈ dataformatList := by simpa using hdf
  simp [createReplica, hg, hdf', ha, hw, hpr, hsu, hpolls]

theorem createReplica_head (attrs : List (String × PVal)) (url : String)
    (a : CRArgs) (conn : Conn)
    (hg : gateEval attrs = some false)
    (hdf : dataformatList.contains (pyLower a.dataFormat) = true) :
    (createReplica attrs url a conn).1.head? =
      some (.post (url ++ "/createReplica") (crParams a)) := by
  simp only [createReplica, hg]
  rw [if_pos hdf]
  repeat' split
  all_goals first
    | rfl
    | exact afterPath_head _ _ _ _ _

/-- Claim C1: for a job whose polled statuses are "running", "running",
then "completed", `createReplica` with `async=true` and `wait=true`
returns the completed status payload after exactly two status polls
beyond the first one — three status GETs in total after the initial
POST. -/
theorem createReplica_running_running_completed
    (attrs : List (String × PVal)) (url : String) (a : CRArgs) (conn : Conn)
    (jd : List (String × PVal)) (su : String) (p1 p2 p3 : PVal)
    (hg : gateEval attrs = some false)
    (hdf : dataformatList.contains (pyLower a.dataFormat) = true)
    (ha : a.asyncJob = true) (hw : a.wait = true)
    (hout : a.outPath = Option.none)
    (hpr : conn.postResponse = .dict jd)
    (hsu : lookupKey "statusUrl" jd = some (.str su))
    (hpolls : conn.pollResponses = [p1, p2, p3])
    (h1 : statusOf p1 = some "running") (h2 : statusOf p2 = some "running")
    (h3 : statusOf p3 = some "completed") :
    createReplica attrs url a conn =
      (Request.post (url ++ "/createReplica") (crParams a) ::
         List.replicate 3 (.get (su ++ "/status") [("f", PVal.str "json")]),
       .value p3) := by
  rw [createReplica_wait attrs url a conn jd su p1 [p2, p3]
        hg hdf ha hw hpr hsu hpolls,
      pollLoop_step p1 p2 [p3] "running" "running" h1 (by decide) h2 (by decide),
      pollLoop_step p2 p3 [] "running" "completed" h2 (by decide) h3 (by decide),
      pollLoop_completed p3 [] h3]
  obtain ⟨d3, rfl⟩ := statusOf_eq_dict p3 "completed" h3
  simp [LoopOut.bump, hout, afterPath_none_dict]

/-- Witness for C1 at a concrete job. -/
theorem createReplica_running_running_completed_witness :
    createReplica [] "http://svc"
      { replicaName := .str "r", layersArg := .str "0",
        asyncJob := true, wait := true }
      { postResponse := .dict [("statusUrl", .str "http://svc/jobs/1")],
        pollResponses := [.dict [("status", .str "running")],
          .dict [("status", .str "running")],
          .dict [("status", .str "completed")]] } =
      (Request.post ("http://svc" ++ "/createReplica")
         (crParams { replicaName := .str "r", layersArg := .str "0",
                     asyncJob := true, wait := true }) ::
         List.replicate 3
           (.get ("http://svc/jobs/1" ++ "/status") [("f", PVal.str "json")]),
       .value (.dict [("status", .str "completed")])) :=
  createReplica_running_running_completed [] "http://svc"
    { replicaName := .str "r", layersArg := .str "0",
      asyncJob := true, wait := true }
    { postResponse := .dict [("statusUrl", .str "http://svc/jobs/1")],
      pollResponses := [.dict [("status", .str "running")],
        .dict [("status", .str "running")],
        .dict [("status", .str "completed")]] }
    [("statusUrl", .str "http://svc/jobs/1")] "http://svc/jobs/1"
    (.dict [("status", .str "running")]) (.dict [("status", .str "running")])
    (.dict [("status", .str "completed")])
    rfl (by decide) rfl rfl rfl rfl rfl rfl rfl rfl rfl

/-- Claim C2, counterexample: with polled statuses "failed" then
"completed", the wait loop does not terminate at the first poll's
"failed" payload — the source checks "failed" only on polls made inside
the loop body, so it polls again (two status GETs) and returns the
completed payload; the raw failed payload is never returned. -/
theorem createReplica_failed_first_poll_counterexample :
    createReplica [] "http://svc"
      { replicaName := .str "r", layersArg := .str "0",
        asyncJob := true, wait := true }
      { postResponse := .dict [("statusUrl", .str "http://svc/jobs/1")],
        pollResponses := [.dict [("status", .str "failed")],
          .dict [("status", .str "completed")]] } =
      (Request.post ("http://svc" ++ "/createReplica")
         (crParams { replicaName := .str "r", layersArg := .str "0",
                     asyncJob := true, wait := true }) ::
         List.replicate 2
           (.get ("http://svc/jobs/1" ++ "/status") [("f", PVal.str "json")]),
       .value (.dict [("status", .str "completed")])) ∧
    PVal.dict [("status", .str "completed")] ≠
      PVal.dict [("status", .str "failed")] :=
  ⟨rfl, fun h => absurd (congrArg statusOf h) (by decide)⟩

/-- Claim C2 (amended): the "failed" check applies to every poll made
inside the loop body — if the initial status poll is not "completed" and
every intermediate poll is neither "completed" nor "failed", then the
first subsequent poll whose status is "failed" (case-insensitive)
terminates the loop and its raw payload is returned, not raised.  A
"failed" status on the initial poll does not terminate the loop (the
initial poll's result is only compared against "completed"), so the
loop polls again. -/
theorem createReplica_failed_in_loop_returns_payload
    (attrs : List (String × PVal)) (url : String) (a : CRArgs) (conn : Conn)
    (jd : List (String × PVal)) (su : String)
    (p0 : PVal) (mid : List PVal) (q : PVal) (rest : List PVal) (s0 : String)
    (hg : gateEval attrs = some false)
    (hdf : dataformatList.contains (pyLower a.dataFormat) = true)
    (ha : a.asyncJob = true) (hw : a.wait = true)
    (hpr : conn.postResponse = .dict jd)
    (hsu : lookupKey "statusUrl" jd = some (.str su))
    (hpolls : conn.pollResponses = p0 :: mid ++ q :: rest)
    (h0 : statusOf p0 = some s0) (h0c : s0 ≠ "completed")
    (hmid : ∀ p ∈ mid, ∃ sp, statusOf p = some sp ∧
      sp ≠ "completed" ∧ sp ≠ "failed")
    (hq : statusOf q = some "failed") :
    createReplica attrs url a conn =
      (Request.post (url ++ "/createReplica") (crParams a) ::
         List.replicate (mid.length + 2)
           (.get (su ++ "/status") [("f", PVal.str "json")]),
       .value q) := by
  rw [createReplica_wait attrs url a conn jd su p0 (mid ++ q :: rest)
        hg hdf ha hw hpr hsu hpolls,
      pollLoop_fail_after mid p0 q rest s0 h0 h0c hmid hq]

/-- Witness for the amended C2 at a concrete job (initial poll "pending",
one intermediate "running" poll, then "failed"; a further "completed"
response is supplied but never requested). -/
theorem createReplica_failed_in_loop_returns_payload_witness :
    createReplica [] "http://svc"
      { replicaName := .str "r", layersArg := .str "0",
        asyncJob := true, wait := true }
      { postResponse := .dict [("statusUrl", .str "http://svc/jobs/1")],
        pollResponses := [.dict [("status", .str "pending")],
          .dict [("status", .str "running")],
          .dict [("status", .str "Failed")],
          .dict [("status", .str "completed")]] } =
      (Request.post ("http://svc" ++ "/createReplica")
         (crParams { replicaName := .str "r", layersArg := .str "0",
                     asyncJob := true, wait := true }) ::
         List.replicate 3
           (.get ("http://svc/jobs/1" ++ "/status") [("f", PVal.str "json")]),
       .value (.dict [("status", .str "Failed")])) :=
  createReplica_failed_in_loop_returns_payload [] "http://svc"
    { replicaName := .str "r", layersArg := .str "0",
      asyncJob := true, wait := true }
    { postResponse := .dict [("statusUrl", .str "http://svc/jobs/1")],
      pollResponses := [.dict [("status", .str "pending")],
        .dict [("status", .str "running")],
        .dict [("status", .str "Failed")],
        .dict [("status", .str "completed")]] }
    [("statusUrl", .str "http://svc/jobs/1")] "http://svc/jobs/1"
    (.dict [("status", .str "pending")]) [.dict [("status", .str "running")]]
    (.dict [("status", .str "Failed")]) [.dict [("status", .str "completed")]]
    "pending" rfl (by decide) rfl rfl rfl rfl rfl rfl (by decide)
    (by
      intro p hp
      rw [List.mem_singleton] at hp
      subst hp
      exact ⟨"running", rfl, by decide, by decide⟩)
    rfl

theorem crParams_dataFormat (a : CRArgs)
    (hgf : ∀ kv ∈ a.geometryFilter.getD [], kv.1 ≠ "dataFormat") :
    lookupKey "dataFormat" (crParams a) = some (.str (pyLower a.dataFormat)) := by
  simp only [crParams]
  rw [lookupKey_setOpt_ne _ _ _ _ (by decide),
      lookupKey_setOpt_ne _ _ _ _ (by decide),
      lookupKey_setOpt_ne _ _ _ _ (by decide),
      lookupKey_updateOpt_ne _ _ _ hgf,
      lookupKey_setOpt_ne _ _ _ _ (by decide),
      lookupKey_setKey_self]

/-- Claim C3: with the sync/Extract gate passing, a `dataFormat` whose
lower-cased value is outside {filegdb, json, sqlite, shapefile} makes
`createReplica` raise with no request issued; a `dataFormat` inside the
set (case-insensitively) has its lower-cased value included in the POSTed
parameters (provided the optional geometry filter does not itself rebind
the literal `dataFormat` key, which `params.update` would overwrite). -/
theorem createReplica_dataFormat_validation :
    (∀ (attrs : List (String × PVal)) (url : String) (a : CRArgs) (conn : Conn),
       gateEval attrs = some false →
       dataformatList.contains (pyLower a.dataFormat) = false →
       createReplica attrs url a conn = ([], .raisedMsg "Invalid dataFormat")) ∧
    (∀ (attrs : List (String × PVal)) (url : String) (a : CRArgs) (conn : Conn),
       gateEval attrs = some false →
       dataformatList.contains (pyLower a.dataFormat) = true →
       (∀ kv ∈ a.geometryFilter.getD [], kv.1 ≠ "dataFormat") →
       lookupKey "dataFormat" (crParams a) =
         some (.str (pyLower a.dataFormat)) ∧
       (createReplica attrs url a conn).1.head? =
         some (.post (url ++ "/createReplica") (crParams a))) := by
  constructor
  · intro attrs url a conn hg hdf
    simp only [createReplica, hg]
    rw [if_neg (by rw [hdf]; exact Bool.false_ne_true)]
  · intro attrs url a conn hg hdf hgf
    exact ⟨crParams_dataFormat a hgf, createReplica_head attrs url a conn hg hdf⟩

/-- Witness for C3: `dataFormat="XML"` raises with no request;
`dataFormat="JSON"` is sent lower-cased. -/
theorem createReplica_dataFormat_validation_witness :
    createReplica [] "http://svc"
      { replicaName := .str "r", layersArg := .str "0", dataFormat := "XML" }
      { postResponse := .null } = ([], .raisedMsg "Invalid dataFormat") ∧
    (lookupKey "dataFormat"
        (crParams { replicaName := .str "r", layersArg := .str "0",
                    dataFormat := "JSON" }) = some (.str "json") ∧
     (createReplica [] "http://svc"
        { replicaName := .str "r", layersArg := .str "0", dataFormat := "JSON" }
        { postResponse := .null }).1.head? =
       some (.post ("http://svc" ++ "/createReplica")
         (crParams { replicaName := .str "r", layersArg := .str "0",
                     dataFormat := "JSON" }))) :=
  ⟨createReplica_dataFormat_validation.1 [] "http://svc"
     { replicaName := .str "r", layersArg := .str "0", dataFormat := "XML" }
     { postResponse := .null } rfl (by decide),
   createReplica_dataFormat_validation.2 [] "http://svc"
     { replicaName := .str "r", layersArg := .str "0", dataFormat := "JSON" }
     { postResponse := .null } rfl (by decide) (by simp)⟩

/-- Claim C4: a descriptor whose metadata declares `syncEnabled=false` and
whose `capabilities` string does not contain "Extract" makes
`createReplica` return `None` with no request, whatever the other
arguments. -/
theorem createReplica_gate_noop
    (attrs : List (String × PVal)) (url : String) (a : CRArgs) (conn : Conn)
    (c : String)
    (hse : lookupKey "syncEnabled" attrs = some (.bool false))
    (hcap : lookupKey "capabilities" attrs = some (.str c))
    (hex : strContains c "Extract" = false) :
    createReplica attrs url a conn = ([], .pyNone) := by
  have hg : gateEval attrs = some true := by
    simp [gateEval, hse, hcap, pyEqFalse, pyInStr, hex]
  simp [createReplica, hg]

/-- Witness for C4 at a concrete descriptor. -/
theorem createReplica_gate_noop_witness :
    createReplica
      [("syncEnabled", .bool false), ("capabilities", .str "Create,Query")]
      "http://svc" { replicaName := .str "r", layersArg := .str "0" }
      { postResponse := .null } = ([], .pyNone) :=
  createReplica_gate_noop
    [("syncEnabled", .bool false), ("capabilities", .str "Create,Query")]
    "http://svc" { replicaName := .str "r", layersArg := .str "0" }
    { postResponse := .null } "Create,Query" rfl rfl (by decide)

/-- Claim C5: the layer-level query raises `ValueError(results)` exactly
when the decoded response body has an `error` key, and returns the body
unchanged otherwise. -/
theorem flQuery_error_key (a : FLQueryArgs) (url : String)
    (d : List (String × PVal)) (ps : Params)
    (hps : flQueryParams a = some ps) :
    (hasKeyB "error" d = true →
       flQuery a url (.dict d) =
         ([.post (url ++ "/query") ps], .raisedVal (.dict d))) ∧
    (hasKeyB "error" d = false →
       flQuery a url (.dict d) =
         ([.post (url ++ "/query") ps], .value (.dict d))) := by
  constructor <;> intro h <;> simp [flQuery, hps, pyInStr, h]

/-- Witness for C5: a body with an `error` key raises; a body without one
is returned unchanged. -/
theorem flQuery_error_key_witness :
    flQuery {} "http://svc/0" (.dict [("error", .dict [])]) =
      ([.post ("http://svc/0" ++ "/query")
          [("f", .str "json"), ("where", .str "1=1"), ("outFields", .str "*"),
           ("returnGeometry", .bool true), ("returnIdsOnly", .bool false),
           ("returnCountOnly", .bool false), ("returnDistinctValues", .bool false),
           ("returnExtentOnly", .bool false)]],
       .raisedVal (.dict [("error", .dict [])])) ∧
    flQuery {} "http://svc/0" (.dict [("features", .list [])]) =
      ([.post ("http://svc/0" ++ "/query")
          [("f", .str "json"), ("where", .str "1=1"), ("outFields", .str "*"),
           ("returnGeometry", .bool true), ("returnIdsOnly", .bool false),
           ("returnCountOnly", .bool false), ("returnDistinctValues", .bool false),
           ("returnExtentOnly", .bool false)]],
       .value (.dict [("features", .list [])])) :=
  ⟨(flQuery_error_key {} "http://svc/0" [("error", .dict [])] _ rfl).1 rfl,
   (flQuery_error_key {} "http://svc/0" [("features", .list [])] _ rfl).2 rfl⟩

/-- Claim C6: `addFeature` and `updateFeature` serialize a single mapping
exactly as the one-element list containing it, and both raise an input
error with no request for a `features` argument that is neither a mapping
nor a list. -/
theorem features_normalization :
    (∀ (m : List (String × PVal)) (g : Option PVal) (r resp : PVal)
       (u : String),
       addFeature u (.dict m) g r resp = addFeature u (.list [.dict m]) g r resp ∧
       updateFeature u (.dict m) g r resp =
         updateFeature u (.list [.dict m]) g r resp) ∧
    (∀ (v : PVal) (g : Option PVal) (r resp : PVal) (u : String),
       isDict v = false → isList v = false →
       addFeature u v g r resp =
         ([], .raisedMsg
           "features must be of type list of dictionaries or a dictionary") ∧
       updateFeature u v g r resp =
         ([], .raisedVal (.dict [("message", .str "invalid inputs")]))) := by
  constructor
  · intro m g r resp u
    exact ⟨rfl, rfl⟩
  · intro v g r resp u hd hl
    cases v with
    | dict d => exact absurd hd (by simp [isDict])
    | list l => exact absurd hl (by simp [isList])
    | str s => exact ⟨rfl, rfl⟩
    | int n => exact ⟨rfl, rfl⟩
    | bool b => exact ⟨rfl, rfl⟩
    | null => exact ⟨rfl, rfl⟩

/-- Witness for C6 at concrete inputs: a single mapping versus its
one-element list, and an integer `features` argument raising. -/
theorem features_normalization_witness :
    (addFeature "http://svc/0" (.dict [("attributes", .dict [])])
       Option.none (.bool true) (.dict []) =
     addFeature "http://svc/0" (.list [.dict [("attributes", .dict [])]])
       Option.none (.bool true) (.dict [])) ∧
    addFeature "http://svc/0" (.int 7) Option.none (.bool true) (.dict []) =
      ([], .raisedMsg
        "features must be of type list of dictionaries or a dictionary") ∧
    updateFeature "http://svc/0" (.int 7) Option.none (.bool true) (.dict []) =
      ([], .raisedVal (.dict [("message", .str "invalid inputs")])) :=
  ⟨(features_normalization.1 [("attributes", .dict [])] Option.none
      (.bool true) (.dict []) "http://svc/0").1,
   features_normalization.2 (.int 7) Option.none (.bool true) (.dict [])
     "http://svc/0" rfl rfl⟩

/-- Claim C8: `addAttachment` on a layer whose metadata reports
`hasAttachments=false` issues no request and returns the explanatory
sentinel string; with `hasAttachments=true` it issues the multipart POST
and returns the decoded response. -/
theorem addAttachment_gating (attrs : List (String × PVal))
    (url oid fp : String) (resp : PVal) :
    (lookupKey "hasAttachments" attrs = some (.bool false) →
       addAttachment attrs url oid fp resp =
         ([], .value
           (.str "Attachments are not supported for this feature service."))) ∧
    (lookupKey "hasAttachments" attrs = some (.bool true) →
       addAttachment attrs url oid fp resp =
         ([.postFiles (url ++ "/" ++ oid ++ "/addAttachment")
             [("f", .str "json")] [("attachment", fp)]], .value resp)) := by
  constructor <;> intro h <;> simp [addAttachment, h, pyEqTrue]

/-- Witness for C8 at both gate values. -/
theorem addAttachment_gating_witness :
    addAttachment [("hasAttachments", .bool false)] "http://svc/0" "12"
      "/tmp/a.png" (.dict [("addAttachmentResult", .dict [])]) =
      ([], .value
        (.str "Attachments are not supported for this feature service.")) ∧
    addAttachment [("hasAttachments", .bool true)] "http://svc/0" "12"
      "/tmp/a.png" (.dict [("addAttachmentResult", .dict [])]) =
      ([.postFiles ("http://svc/0" ++ "/" ++ "12" ++ "/addAttachment")
          [("f", .str "json")] [("attachment", "/tmp/a.png")]],
       .value (.dict [("addAttachmentResult", .dict [])])) :=
  ⟨(addAttachment_gating [("hasAttachments", .bool false)] "http://svc/0" "12"
      "/tmp/a.png" (.dict [("addAttachmentResult", .dict [])])).1 rfl,
   (addAttachment_gating [("hasAttachments", .bool true)] "http://svc/0" "12"
      "/tmp/a.png" (.dict [("addAttachmentResult", .dict [])])).2 rfl⟩

/-- Claim C7: in both the service-level and the layer-level query, a
supplied geometry filter contributes exactly the four parameters
`geometry`, `geometryType`, `spatialRel` (service) or
`spatialRelationship` (layer) and `inSR`, each copied from the filter;
with no filter none of those keys appear (for the layer query, provided
the caller's open-ended `kwargs` do not themselves bind them); and every
other unset optional filter is omitted from the parameters entirely. -/
theorem query_geometry_filter_composition :
    (∀ (a : FSQueryArgs) (gf : List (String × PVal)) (g gt sr insr : PVal),
       a.geometryFilter = some (.dict gf) →
       lookupKey "geometryType" gf = some gt →
       lookupKey "spatialRel" gf = some sr →
       lookupKey "geometry" gf = some g →
       lookupKey "inSR" gf = some insr →
       ∃ ps, fsQueryParams a = some ps ∧
         lookupKey "geometry" ps = some g ∧
         lookupKey "geometryType" ps = some gt ∧
         lookupKey "spatialRel" ps = some sr ∧
         lookupKey "inSR" ps = some insr) ∧
    (∀ (a : FSQueryArgs), a.geometryFilter = Option.none →
       ∃ ps, fsQueryParams a = some ps ∧
         hasKeyB "geometry" ps = false ∧
         hasKeyB "geometryType" ps = false ∧
         hasKeyB "spatialRel" ps = false ∧
         hasKeyB "inSR" ps = false) ∧
    (∀ (rg ri rc rz rm : Bool),
       fsQueryParams { returnGeometry := rg, returnIdsOnly := ri,
                       returnCountOnly := rc, returnZ := rz, returnM := rm } =
         some [("f", .str "json"), ("returnGeometry", .bool rg),
               ("returnIdsOnly", .bool ri), ("returnCountOnly", .bool rc),
               ("returnZ", .bool rz), ("returnM", .bool rm)]) ∧
    (∀ (a : FLQueryArgs) (gf : List (String × PVal)) (g gt sr insr : PVal),
       a.geometryFilter = some (.dict gf) →
       lookupKey "geometry" gf = some g →
       lookupKey "geometryType" gf = some gt →
       lookupKey "spatialRel" gf = some sr →
       lookupKey "inSR" gf = some insr →
       ∃ ps, flQueryParams a = some ps ∧
         lookupKey "geometry" ps = some g ∧
         lookupKey "geometryType" ps = some gt ∧
         lookupKey "spatialRelationship" ps = some sr ∧
         lookupKey "inSR" ps = some insr) ∧
    (∀ (a : FLQueryArgs), a.geometryFilter = Option.none →
       (∀ kv ∈ a.kwargs, kv.1 ≠ "geometry" ∧ kv.1 ≠ "geometryType" ∧
          kv.1 ≠ "spatialRelationship" ∧ kv.1 ≠ "inSR") →
       ∃ ps, flQueryParams a = some ps ∧
         hasKeyB "geometry" ps = false ∧
         hasKeyB "geometryType" ps = false ∧
         hasKeyB "spatialRelationship" ps = false ∧
         hasKeyB "inSR" ps = false) ∧
    (∀ (w ofl : PVal) (rg ri rc rd re : Bool),
       flQueryParams { whereClause := w, out_fields := ofl,
                       returnGeometry := rg, returnIDsOnly := ri,
                       returnCountOnly := rc, returnDistinctValues := rd,
                       returnExtentOnly := re } =
         some [("f", .str "json"), ("where", w), ("outFields", ofl),
               ("returnGeometry", .bool rg), ("returnIdsOnly", .bool ri),
               ("returnCountOnly", .bool rc),
               ("returnDistinctValues", .bool rd),
               ("returnExtentOnly", .bool re)]) := by
  refine ⟨?_, ?_, ?_, ?_, ?_, ?_⟩
  · intro a gf g gt sr insr hgf hgt hsr hg2 hinsr
    have hps : fsQueryParams a = some (setOptDict "time" a.timeFilter
        (setOptDict "outSR" a.outSR (setKey "inSR" insr (setKey "geometry" g
          (setKey "spatialRel" sr (setKey "geometryType" gt
            (setOptDict "layerDefs" a.layerDefsFilter
              [("f", .str "json"),
               ("returnGeometry", .bool a.returnGeometry),
               ("returnIdsOnly", .bool a.returnIdsOnly),
               ("returnCountOnly", .bool a.returnCountOnly),
               ("returnZ", .bool a.returnZ),
               ("returnM", .bool a.returnM)]))))))) := by
      simp [fsQueryParams, hgf, hgt, hsr, hg2, hinsr]
    refine ⟨_, hps, ?_, ?_, ?_, ?_⟩
    · rw [lookupKey_setOptDict_ne "geometry" "time" _ _ (by decide),
          lookupKey_setOptDict_ne "geometry" "outSR" _ _ (by decide),
          lookupKey_setKey_ne "geometry" "inSR" _ _ (by decide),
          lookupKey_setKey_self]
    · rw [lookupKey_setOptDict_ne "geometryType" "time" _ _ (by decide),
          lookupKey_setOptDict_ne "geometryType" "outSR" _ _ (by decide),
          lookupKey_setKey_ne "geometryType" "inSR" _ _ (by decide),
          lookupKey_setKey_ne "geometryType" "geometry" _ _ (by decide),
          lookupKey_setKey_ne "geometryType" "spatialRel" _ _ (by decide),
          lookupKey_setKey_self]
    · rw [lookupKey_setOptDict_ne "spatialRel" "time" _ _ (by decide),
          lookupKey_setOptDict_ne "spatialRel" "outSR" _ _ (by decide),
          lookupKey_setKey_ne "spatialRel" "inSR" _ _ (by decide),
          lookupKey_setKey_ne "spatialRel" "geometry" _ _ (by decide),
          lookupKey_setKey_self]
    · rw [lookupKey_setOptDict_ne "inSR" "time" _ _ (by decide),
          lookupKey_setOptDict_ne "inSR" "outSR" _ _ (by decide),
          lookupKey_setKey_self]
  · intro a hgf
    have hps : fsQueryParams a = some (setOptDict "time" a.timeFilter
        (setOptDict "outSR" a.outSR
          (setOptDict "layerDefs" a.layerDefsFilter
            [("f", .str "json"),
             ("returnGeometry", .bool a.returnGeometry),
             ("returnIdsOnly", .bool a.returnIdsOnly),
             ("returnCountOnly", .bool a.returnCountOnly),
             ("returnZ", .bool a.returnZ),
             ("returnM", .bool a.returnM)]))) := by
      simp [fsQueryParams, hgf]
    refine ⟨_, hps, ?_, ?_, ?_, ?_⟩ <;>
    · unfold hasKeyB
      rw [lookupKey_setOptDict_ne _ "time" _ _ (by decide),
          lookupKey_setOptDict_ne _ "outSR" _ _ (by decide),
          lookupKey_setOptDict_ne _ "layerDefs" _ _ (by decide)]
      rfl
  · intro rg ri rc rz rm
    rfl
  · intro a gf g gt sr insr hgf hg2 hgt hsr hinsr
    have hps : flQueryParams a = some (setOptDict "outStatistics" a.statisticFilter
        (setOpt "groupByFieldsForStatistics" a.groupByFieldsForStatistics
          (setSel "resultRecordCount" a.resultRecordCount
            (setSel "resultOffset" a.resultOffset
              (setSel "objectIds" a.objectIds
                (setKey "inSR" insr (setKey "spatialRelationship" sr
                  (setKey "geometryType" gt (setKey "geometry" g
                    (setOptDict "time" a.timeFilter
                      (updateDict
                        [("f", .str "json"), ("where", a.whereClause),
                         ("outFields", a.out_fields),
                         ("returnGeometry", .bool a.returnGeometry),
                         ("returnIdsOnly", .bool a.returnIDsOnly),
                         ("returnCountOnly", .bool a.returnCountOnly),
                         ("returnDistinctValues", .bool a.returnDistinctValues),
                         ("returnExtentOnly", .bool a.returnExtentOnly)]
                        a.kwargs))))))))))) := by
      simp [flQueryParams, hgf, hg2, hgt, hsr, hinsr]
    refine ⟨_, hps, ?_, ?_, ?_, ?_⟩
    · rw [lookupKey_setOptDict_ne "geometry" "outStatistics" _ _ (by decide),
          lookupKey_setOpt_ne "geometry" "groupByFieldsForStatistics" _ _ (by decide),
          lookupKey_setSel_ne "geometry" "resultRecordCount" _ _ (by decide),
          lookupKey_setSel_ne "geometry" "resultOffset" _ _ (by decide),
          lookupKey_setSel_ne "geometry" "objectIds" _ _ (by decide),
          lookupKey_setKey_ne "geometry" "inSR" _ _ (by decide),
          lookupKey_setKey_ne "geometry" "spatialRelationship" _ _ (by decide),
          lookupKey_setKey_ne "geometry" "geometryType" _ _ (by decide),
          lookupKey_setKey_self]
    · rw [lookupKey_setOptDict_ne "geometryType" "outStatistics" _ _ (by decide),
          lookupKey_setOpt_ne "geometryType" "groupByFieldsForStatistics" _ _ (by decide),
          lookupKey_setSel_ne "geometryType" "resultRecordCount" _ _ (by decide),
          lookupKey_setSel_ne "geometryType" "resultOffset" _ _ (by decide),
          lookupKey_setSel_ne "geometryType" "objectIds" _ _ (by decide),
          lookupKey_setKey_ne "geometryType" "inSR" _ _ (by decide),
          lookupKey_setKey_ne "geometryType" "spatialRelationship" _ _ (by decide),
          lookupKey_setKey_self]
    · rw [lookupKey_setOptDict_ne "spatialRelationship" "outStatistics" _ _ (by decide),
          lookupKey_setOpt_ne "spatialRelationship" "groupByFieldsForStatistics" _ _ (by decide),
          lookupKey_setSel_ne "spatialRelationship" "resultRecordCount" _ _ (by decide),
          lookupKey_setSel_ne "spatialRelationship" "resultOffset" _ _ (by decide),
          lookupKey_setSel_ne "spatialRelationship" "objectIds" _ _ (by decide),
          lookupKey_setKey_ne "spatialRelationship" "inSR" _ _ (by decide),
          lookupKey_setKey_self]
    · rw [lookupKey_setOptDict_ne "inSR" "outStatistics" _ _ (by decide),
          lookupKey_setOpt_ne "inSR" "groupByFieldsForStatistics" _ _ (by decide),
          lookupKey_setSel_ne "inSR" "resultRecordCount" _ _ (by decide),
          lookupKey_setSel_ne "inSR" "resultOffset" _ _ (by decide),
          lookupKey_setSel_ne "inSR" "objectIds" _ _ (by decide),
          lookupKey_setKey_self]
  · intro a hgf hkw
    have hps : flQueryParams a = some (setOptDict "outStatistics" a.statisticFilter
        (setOpt "groupByFieldsForStatistics" a.groupByFieldsForStatistics
          (setSel "resultRecordCount" a.resultRecordCount
            (setSel "resultOffset" a.resultOffset
              (setSel "objectIds" a.objectIds
                (setOptDict "time" a.timeFilter
                  (updateDict
                    [("f", .str "json"), ("where", a.whereClause),
                     ("outFields", a.out_fields),
                     ("returnGeometry", .bool a.returnGeometry),
                     ("returnIdsOnly", .bool a.returnIDsOnly),
                     ("returnCountOnly", .bool a.returnCountOnly),
                     ("returnDistinctValues", .bool a.returnDistinctValues),
                     ("returnExtentOnly", .bool a.returnExtentOnly)]
                    a.kwargs))))))) := by
      simp [flQueryParams, hgf]
    refine ⟨_, hps, ?_, ?_, ?_, ?_⟩
    · unfold hasKeyB
      rw [lookupKey_setOptDict_ne "geometry" "outStatistics" _ _ (by decide),
          lookupKey_setOpt_ne "geometry" "groupByFieldsForStatistics" _ _ (by decide),
          lookupKey_setSel_ne "geometry" "resultRecordCount" _ _ (by decide),
          lookupKey_setSel_ne "geometry" "resultOffset" _ _ (by decide),
          lookupKey_setSel_ne "geometry" "objectIds" _ _ (by decide),
          lookupKey_setOptDict_ne "geometry" "time" _ _ (by decide),
          lookupKey_updateDict_ne "geometry" a.kwargs _
            (fun kv hv => (hkw kv hv).1)]
      rfl
    · unfold hasKeyB
      rw [lookupKey_setOptDict_ne "geometryType" "outStatistics" _ _ (by decide),
          lookupKey_setOpt_ne "geometryType" "groupByFieldsForStatistics" _ _ (by decide),
          lookupKey_setSel_ne "geometryType" "resultRecordCount" _ _ (by decide),
          lookupKey_setSel_ne "geometryType" "resultOffset" _ _ (by decide),
          lookupKey_setSel_ne "geometryType" "objectIds" _ _ (by decide),
          lookupKey_setOptDict_ne "geometryType" "time" _ _ (by decide),
          lookupKey_updateDict_ne "geometryType" a.kwargs _
            (fun kv hv => (hkw kv hv).2.1)]
      rfl
    · unfold hasKeyB
      rw [lookupKey_setOptDict_ne "spatialRelationship" "outStatistics" _ _ (by decide),
          lookupKey_setOpt_ne "spatialRelationship" "groupByFieldsForStatistics" _ _ (by decide),
          lookupKey_setSel_ne "spatialRelationship" "resultRecordCount" _ _ (by decide),
          lookupKey_setSel_ne "spatialRelationship" "resultOffset" _ _ (by decide),
          lookupKey_setSel_ne "spatialRelationship" "objectIds" _ _ (by decide),
          lookupKey_setOptDict_ne "spatialRelationship" "time" _ _ (by decide),
          lookupKey_updateDict_ne "spatialRelationship" a.kwargs _
            (fun kv hv => (hkw kv hv).2.2.1)]
      rfl
    · unfold hasKeyB
      rw [lookupKey_setOptDict_ne "inSR" "outStatistics" _ _ (by decide),
          lookupKey_setOpt_ne "inSR" "groupByFieldsForStatistics" _ _ (by decide),
          lookupKey_setSel_ne "inSR" "resultRecordCount" _ _ (by decide),
          lookupKey_setSel_ne "inSR" "resultOffset" _ _ (by decide),
          lookupKey_setSel_ne "inSR" "objectIds" _ _ (by decide),
          lookupKey_setOptDict_ne "inSR" "time" _ _ (by decide),
          lookupKey_updateDict_ne "inSR" a.kwargs _
            (fun kv hv => (hkw kv hv).2.2.2)]
      rfl
  · intro w ofl rg ri rc rd re
    rfl

/-- Witness for C7 at a concrete point filter and at fully-default
arguments. -/
theorem query_geometry_filter_composition_witness :
    (∃ ps, fsQueryParams { geometryFilter := some (.dict
         [("geometry", .dict [("x", .int 1)]),
          ("geometryType", .str "esriGeometryPoint"),
          ("spatialRel", .str "esriSpatialRelIntersects"),
          ("inSR", .int 4326)]) } = some ps ∧
       lookupKey "geometry" ps = some (.dict [("x", .int 1)]) ∧
       lookupKey "geometryType" ps = some (.str "esriGeometryPoint") ∧
       lookupKey "spatialRel" ps = some (.str "esriSpatialRelIntersects") ∧
       lookupKey "inSR" ps = some (.int 4326)) ∧
    (∃ ps, fsQueryParams {} = some ps ∧
       hasKeyB "geometry" ps = false ∧ hasKeyB "geometryType" ps = false ∧
       hasKeyB "spatialRel" ps = false ∧ hasKeyB "inSR" ps = false) ∧
    fsQueryParams {} =
      some [("f", .str "json"), ("returnGeometry", .bool true),
            ("returnIdsOnly", .bool false), ("returnCountOnly", .bool false),
            ("returnZ", .bool false), ("returnM", .bool false)] ∧
    (∃ ps, flQueryParams { geometryFilter := some (.dict
         [("geometry", .dict [("x", .int 1)]),
          ("geometryType", .str "esriGeometryPoint"),
          ("spatialRel", .str "esriSpatialRelIntersects"),
          ("inSR", .int 4326)]) } = some ps ∧
       lookupKey "geometry" ps = some (.dict [("x", .int 1)]) ∧
       lookupKey "geometryType" ps = some (.str "esriGeometryPoint") ∧
       lookupKey "spatialRelationship" ps =
         some (.str "esriSpatialRelIntersects") ∧
       lookupKey "inSR" ps = some (.int 4326)) ∧
    (∃ ps, flQueryParams {} = some ps ∧
       hasKeyB "geometry" ps = false ∧ hasKeyB "geometryType" ps = false ∧
       hasKeyB "spatialRelationship" ps = false ∧
       hasKeyB "inSR" ps = false) ∧
    flQueryParams {} =
      some [("f", .str "json"), ("where", .str "1=1"),
            ("outFields", .str "*"), ("returnGeometry", .bool true),
            ("returnIdsOnly", .bool false), ("returnCountOnly", .bool false),
            ("returnDistinctValues", .bool false),
            ("returnExtentOnly", .bool false)] :=
  ⟨query_geometry_filter_composition.1 _ _ _ _ _ _ rfl rfl rfl rfl rfl,
   query_geometry_filter_composition.2.1 _ rfl,
   query_geometry_filter_composition.2.2.1 true false false false false,
   query_geometry_filter_composition.2.2.2.1 _ _ _ _ _ _ rfl rfl rfl rfl rfl,
   query_geometry_filter_composition.2.2.2.2.1 _ rfl (by simp),
   query_geometry_filter_composition.2.2.2.2.2 (.str "1=1") (.str "*")
     true false false false false⟩

theorem childUrlsAux_map (base : String) (ids : List PVal) :
    childUrlsAux base (ids.map mkIdEntry) =
      some (ids.map (fun i => base ++ "/" ++ pyStr i)) := by
  induction ids with
  | nil => rfl
  | cons i rest ih => simp [childUrlsAux, mkIdEntry, lookupKey, ih]

theorem load_layers_map (base : String) (conn : List (String × PVal))
    (ids tids : List PVal) :
    load_layers conn
      { url := base,
        jsonDict := some [("layers", .list (ids.map mkIdEntry)),
                          ("tables", .list (tids.map mkIdEntry))] } =
      some { url := base,
             jsonDict := some [("layers", .list (ids.map mkIdEntry)),
                               ("tables", .list (tids.map mkIdEntry))],
             layersCache := some (ids.map (fun i => base ++ "/" ++ pyStr i)),
             tablesCache := some (tids.map (fun i => base ++ "/" ++ pyStr i)) } := by
  simp [load_layers, appendFrom, appendLayers, appendTables, lookupKey,
        childUrlsAux_map]

/-- Claim C9: with cached metadata `{"layers":[{"id":0}],"tables":[{"id":1}]}`
the `layers` accessor yields exactly one child at `{base}/0` and the
`tables` accessor one child at `{base}/1`; and for arbitrary arrays of
id-bearing entries the children urls follow the entries in source
order. -/
theorem layers_tables_discovery :
    (∀ (base : String) (conn : List (String × PVal)),
       (∃ s', layersProp conn
           { url := base,
             jsonDict := some [("layers", .list [.dict [("id", .int 0)]]),
                               ("tables", .list [.dict [("id", .int 1)]])] } =
           some ([base ++ "/0"], s')) ∧
       (∃ s', tablesProp conn
           { url := base,
             jsonDict := some [("layers", .list [.dict [("id", .int 0)]]),
                               ("tables", .list [.dict [("id", .int 1)]])] } =
           some ([base ++ "/1"], s'))) ∧
    (∀ (base : String) (conn : List (String × PVal)) (ids tids : List PVal),
       (∃ s', layersProp conn
           { url := base,
             jsonDict := some [("layers", .list (ids.map mkIdEntry)),
                               ("tables", .list (tids.map mkIdEntry))] } =
           some (ids.map (fun i => base ++ "/" ++ pyStr i), s')) ∧
       (∃ s', tablesProp conn
           { url := base,
             jsonDict := some [("layers", .list (ids.map mkIdEntry)),
                               ("tables", .list (tids.map mkIdEntry))] } =
           some (tids.map (fun i => base ++ "/" ++ pyStr i), s'))) := by
  have key : ∀ (base : String) (conn : List (String × PVal)) (ids tids : List PVal),
      (∃ s', layersProp conn
          { url := base,
            jsonDict := some [("layers", .list (ids.map mkIdEntry)),
                              ("tables", .list (tids.map mkIdEntry))] } =
          some (ids.map (fun i => base ++ "/" ++ pyStr i), s')) ∧
      (∃ s', tablesProp conn
          { url := base,
            jsonDict := some [("layers", .list (ids.map mkIdEntry)),
                              ("tables", .list (tids.map mkIdEntry))] } =
          some (tids.map (fun i => base ++ "/" ++ pyStr i), s')) := by
    intro base conn ids tids
    constructor
    · refine ⟨{ url := base,
                jsonDict := some [("layers", .list (ids.map mkIdEntry)),
                                  ("tables", .list (tids.map mkIdEntry))],
                layersCache := some (ids.map (fun i => base ++ "/" ++ pyStr i)),
                tablesCache := some (tids.map (fun i => base ++ "/" ++ pyStr i)) },
              ?_⟩
      simp [layersProp, load_layers_map base conn ids tids]
    · refine ⟨{ url := base,
                jsonDict := some [("layers", .list (ids.map mkIdEntry)),
                                  ("tables", .list (tids.map mkIdEntry))],
                layersCache := some (ids.map (fun i => base ++ "/" ++ pyStr i)),
                tablesCache := some (tids.map (fun i => base ++ "/" ++ pyStr i)) },
              ?_⟩
      simp [tablesProp, load_layers_map base conn ids tids]
  constructor
  · intro base conn
    obtain ⟨⟨s1, h1⟩, ⟨s2, h2⟩⟩ := key base conn [.int 0] [.int 1]
    refine ⟨⟨s1, ?_⟩, ⟨s2, ?_⟩⟩
    · simpa [mkIdEntry, pyStr, String.append_assoc] using h1
    · simpa [mkIdEntry, pyStr, String.append_assoc] using h2
  · exact key

theorem appendLayers_some (jd : List (String × PVal)) (s s' : FService)
    (h : appendLayers jd s = some s')
    (hl : s.layersCache.isSome = true) (ht : s.tablesCache.isSome = true) :
    s'.layersCache.isSome = true ∧ s'.tablesCache.isSome = true := by
  unfold appendLayers at h
  split at h
  · rw [Option.map_eq_some'] at h
    obtain ⟨us, -, rfl⟩ := h
    exact ⟨by simp, by simpa using ht⟩
  · exact absurd h (by simp)
  · obtain rfl : s = s' := by simpa using h
    exact ⟨hl, ht⟩

theorem appendTables_some (jd : List (String × PVal)) (s s' : FService)
    (h : appendTables jd s = some s')
    (hl : s.layersCache.isSome = true) (ht : s.tablesCache.isSome = true) :
    s'.layersCache.isSome = true ∧ s'.tablesCache.isSome = true := by
  unfold appendTables at h
  split at h
  · rw [Option.map_eq_some'] at h
    obtain ⟨us, -, rfl⟩ := h
    exact ⟨by simpa using hl, by simp⟩
  · exact absurd h (by simp)
  · obtain rfl : s = s' := by simpa using h
    exact ⟨hl, ht⟩

theorem appendFrom_some (jd : List (String × PVal)) (s s' : FService)
    (h : appendFrom jd s = some s')
    (hl : s.layersCache.isSome = true) (ht : s.tablesCache.isSome = true) :
    s'.layersCache.isSome = true ∧ s'.tablesCache.isSome = true := by
  unfold appendFrom at h
  split at h
  · rename_i s1 hs1
    have h1 := appendLayers_some jd s s1 hs1 hl ht
    exact appendTables_some jd s1 s' h h1.1 h1.2
  · exact absurd h (by simp)

theorem load_layers_some (conn : List (String × PVal)) (s s' : FService)
    (h : load_layers conn s = some s') :
    s'.layersCache.isSome = true ∧ s'.tablesCache.isSome = true := by
  simp only [load_layers] at h
  split at h
  · exact appendFrom_some _ _ _ h (by simp) (by simp)
  · split at h
    · rename_i s3 hs3
      have h3 := appendFrom_some _ _ _ hs3 (by simp) (by simp)
      exact appendFrom_some _ _ _ h h3.1 h3.2
    · exact absurd h (by simp)

/-- Claim C10: the two child caches are populated together — accessing
either accessor from a state whose caches are absent-or-present together
leaves both caches holding lists — and `refresh_service` resets both
caches to absent in the same step. -/
theorem caches_populated_together :
    (∀ (conn : List (String × PVal)) (s : FService) (lv : List String)
       (s' : FService),
       s.layersCache.isSome = s.tablesCache.isSome →
       layersProp conn s = some (lv, s') →
       s'.layersCache.isSome = true ∧ s'.tablesCache.isSome = true) ∧
    (∀ (conn : List (String × PVal)) (s : FService) (tv : List String)
       (s' : FService),
       s.layersCache.isSome = s.tablesCache.isSome →
       tablesProp conn s = some (tv, s') →
       s'.layersCache.isSome = true ∧ s'.tablesCache.isSome = true) ∧
    (∀ s : FService, (refresh_service s).1.layersCache = Option.none ∧
       (refresh_service s).1.tablesCache = Option.none) := by
  refine ⟨?_, ?_, ?_⟩
  · intro conn s lv s' hinv hacc
    unfold layersProp at hacc
    split at hacc
    · rename_i ls hls
      obtain ⟨-, rfl⟩ : lv = ls ∧ s = s' := by
        simpa [eq_comm] using hacc
      refine ⟨by simp [hls], ?_⟩
      rw [← hinv]
      simp [hls]
    · split at hacc
      · rename_i s1 hs1
        obtain ⟨-, rfl⟩ : lv = s1.layersCache.getD [] ∧ s1 = s' := by
          simpa [eq_comm] using hacc
        exact load_layers_some conn s s1 hs1
      · exact absurd hacc (by simp)
  · intro conn s tv s' hinv hacc
    unfold tablesProp at hacc
    split at hacc
    · rename_i ts hts
      obtain ⟨-, rfl⟩ : tv = ts ∧ s = s' := by
        simpa [eq_comm] using hacc
      refine ⟨?_, by simp [hts]⟩
      rw [hinv]
      simp [hts]
    · split at hacc
      · rename_i s1 hs1
        obtain ⟨-, rfl⟩ : tv = s1.tablesCache.getD [] ∧ s1 = s' := by
          simpa [eq_comm] using hacc
        exact load_layers_some conn s s1 hs1
      · exact absurd hacc (by simp)
  · intro s
    exact ⟨rfl, rfl⟩

/-- Witness for C10: reading `tables` on a fresh descriptor with empty
metadata populates both caches; `refresh_service` clears both. -/
theorem caches_populated_together_witness :
    (({ url := "http://svc" } : FService).layersCache.isSome =
       ({ url := "http://svc" } : FService).tablesCache.isSome) ∧
    tablesProp [] { url := "http://svc" } =
      some ([], { url := "http://svc", jsonDict := some [],
                  layersCache := some [], tablesCache := some [] }) ∧
    (({ url := "http://svc", jsonDict := some [], layersCache := some [],
        tablesCache := some [] } : FService).layersCache.isSome = true ∧
     ({ url := "http://svc", jsonDict := some [], layersCache := some [],
        tablesCache := some [] } : FService).tablesCache.isSome = true) ∧
    (refresh_service { url := "http://svc", jsonDict := some [],
                       layersCache := some [],
                       tablesCache := some [] }).1.layersCache =
      Option.none ∧
    (refresh_service { url := "http://svc", jsonDict := some [],
                       layersCache := some [],
                       tablesCache := some [] }).1.tablesCache =
      Option.none :=
  ⟨rfl, rfl,
   caches_populated_together.2.1 [] { url := "http://svc" } []
     { url := "http://svc", jsonDict := some [],
       layersCache := some [], tablesCache := some [] } rfl rfl,
   (caches_populated_together.2.2
      { url := "http://svc", jsonDict := some [],
        layersCache := some [], tablesCache := some [] }).1,
   (caches_populated_together.2.2
      { url := "http://svc", jsonDict := some [],
        layersCache := some [], tablesCache := some [] }).2⟩
